import Mathlib

/-!
Shallow embedding of the Presence-API entity-lifecycle core
(company-service/api/service.py and employee-service/api/service.py).

Documents are modelled as insertion-ordered association lists from field
names to JSON-like values, matching Python dict semantics (unique keys,
assignment keeps the position of an existing key, deletion removes it,
re-insertion appends at the end).  The Firestore collection is modelled
as an insertion-ordered association list from document ids to documents.
Clock reads (datetime.utcnow().isoformat()) and bcrypt salts are passed
as explicit string parameters, one per call site in the source.
-/

/-- Values stored in a document field: strings, booleans, and null.
These are the only value shapes the modelled code paths distinguish. -/
inductive Val where
  | vStr (s : String)
  | vBool (b : Bool)
  | vNull
deriving DecidableEq, Repr

/-- Python truthiness of a value, used by checks such as `if data[k]:`. -/
def Val.truthy : Val → Bool
  | .vStr s => s ≠ ""
  | .vBool b => b
  | .vNull => false

/-- Whether a value is a Python `str` (non-strings make `.startswith` and
`.encode` raise `AttributeError`). -/
def Val.isStr : Val → Bool
  | .vStr _ => true
  | _ => false

/-- A document: an insertion-ordered map from field names to values,
modelling a Python dict. -/
def Doc : Type := List (String × Val)

instance : DecidableEq Doc := inferInstanceAs (DecidableEq (List (String × Val)))

instance : Repr Doc := inferInstanceAs (Repr (List (String × Val)))

/-- Lookup of a field, modelling `d.get(k)` / `d[k]` on a dict with
unique keys (first match). -/
def Doc.get : Doc → String → Option Val
  | [], _ => none
  | (k, v) :: rest, k2 => if k = k2 then some v else Doc.get rest k2

/-- Lookup with a default value. -/
def Doc.getD (d : Doc) (k : String) (dflt : Val) : Val :=
  (Doc.get d k).getD dflt

/-- Key membership, modelling `k in d`. -/
def Doc.hasKey : Doc → String → Bool
  | [], _ => false
  | (k, _) :: rest, k2 => k = k2 || Doc.hasKey rest k2

/-- Emptiness, modelling Python falsiness of a dict (`not d`). -/
def Doc.isEmpty : Doc → Bool
  | [] => true
  | _ :: _ => false

/-- Assignment `d[k] = v`: an existing key keeps its position, a new key
is appended at the end. -/
def Doc.set : Doc → String → Val → Doc
  | [], k, v => [(k, v)]
  | (k1, v1) :: rest, k, v =>
    if k1 = k then (k, v) :: rest else (k1, v1) :: Doc.set rest k v

/-- Deletion `del d[k]` (callers in the source only delete present keys). -/
def Doc.erase : Doc → String → Doc
  | [], _ => []
  | (k1, v1) :: rest, k =>
    if k1 = k then rest else (k1, v1) :: Doc.erase rest k

/-- In-place merge `d.update(other)`: entries of `other` are assigned into
`d` in order, overwriting values at existing keys. -/
def Doc.updateWith : Doc → Doc → Doc
  | d, [] => d
  | d, (k, v) :: rest => Doc.updateWith (Doc.set d k v) rest

/-- A collection of documents keyed by document id, in insertion order.
Modelled from the spec: the document store is an abstract key-value
collection with get/put/delete-by-id and query-by-field-equality
(the FirestoreDB wrapper itself is not part of the sources). -/
def Store : Type := List (String × Doc)

instance : DecidableEq Store := inferInstanceAs (DecidableEq (List (String × Doc)))

/-- Modelled from the spec: `get_all_documents`, the full collection in
iteration order. -/
def Store.getAll (s : Store) : List Doc := s.map (fun p => p.2)

/-- Modelled from the spec: `get_document`, lookup by document id
(returns None when the document does not exist). -/
def Store.getDoc : Store → String → Option Doc
  | [], _ => none
  | (k, d) :: rest, k2 => if k = k2 then some d else Store.getDoc rest k2

/-- Lookup by document id with a default. -/
def Store.getDocD (s : Store) (k : String) (dflt : Doc) : Doc :=
  (Store.getDoc s k).getD dflt

/-- Modelled from the spec: `get_documents_by_field`, query by field
equality over the whole collection. -/
def Store.byField (s : Store) (f : String) (v : Val) : List Doc :=
  (Store.getAll s).filter (fun d => Doc.get d f = some v)

/-- Modelled from the spec: `add_document`, write a document under a
given id (overwrites an existing document with that id). -/
def Store.addDoc : Store → String → Doc → Store
  | [], k, d => [(k, d)]
  | (k1, d1) :: rest, k, d =>
    if k1 = k then (k, d) :: rest else (k1, d1) :: Store.addDoc rest k d

/-- Modelled from the spec: `update_document`, shallow last-write-wins
merge of a partial document onto the stored record with that id. -/
def Store.updateDoc : Store → String → Doc → Store
  | [], _, _ => []
  | (k1, d1) :: rest, k, patch =>
    if k1 = k then (k1, Doc.updateWith d1 patch) :: Store.updateDoc rest k patch
    else (k1, d1) :: Store.updateDoc rest k patch

/-- Response payloads: nothing, a single record, or a list of records. -/
inductive Payload where
  | pNone
  | pDoc (d : Doc)
  | pList (l : List Doc)
deriving DecidableEq

/-- Field lookup inside a single-record payload. -/
def Payload.getField : Payload → String → Option Val
  | .pDoc d, k => Doc.get d k
  | _, _ => none

/-- Whether any record in the payload carries a `password` key. -/
def Payload.hasPasswordKey : Payload → Bool
  | .pNone => false
  | .pDoc d => Doc.hasKey d "password"
  | .pList l => l.any (fun d => Doc.hasKey d "password")

/-- The uniform response envelope (statusCode, message, data). -/
structure Resp where
  status : Nat
  msg : String
  payload : Payload
deriving DecidableEq

/-- Modelled from the spec: utils/response_wrapper builds the uniform
(status, message, data) envelope returned by every operation. -/
def response_wrapper (status : Nat) (msg : String) (payload : Payload) : Resp :=
  ⟨status, msg, payload⟩

/-- A single-quote character (ASCII 39), used in messages copied verbatim
from the source. -/
def squo : String := String.singleton (Char.ofNat 39)

/-- Decimal digit value of a character (only used on digit characters). -/
def digitVal (c : Char) : Nat := c.toNat - 48

/-- The decimal digit character for a value below ten. -/
def digitChar (n : Nat) : Char :=
  if n = 0 then '0' else if n = 1 then '1' else if n = 2 then '2' else if n = 3 then '3'
  else if n = 4 then '4' else if n = 5 then '5' else if n = 6 then '6' else if n = 7 then '7'
  else if n = 8 then '8' else '9'

/-- Most-significant-first decimal digits of a natural number. -/
def natDigits (n : Nat) : List Char :=
  if _h : n < 10 then [digitChar n]
  else natDigits (n / 10) ++ [digitChar (n % 10)]
decreasing_by exact Nat.div_lt_self (by omega) (by omega)

/-- Parse a nonempty all-digit character list as a natural number
(leading zeros allowed, as for Python int). -/
def parseDigits (l : List Char) : Option Nat :=
  if !l.isEmpty && l.all Char.isDigit then
    some (l.foldl (fun a c => a * 10 + digitVal c) 0)
  else none

/-- Model of Python `int(str)`: an optional sign followed by decimal
digits (CPython in addition tolerates surrounding whitespace and
underscores between digits; those forms never arise from the id
formats and are not modelled). Returns none where `int` raises
`ValueError`. -/
def python_int (s : String) : Option Int :=
  match s.data with
  | [] => none
  | c :: rest =>
    if c = '-' then (parseDigits rest).map (fun n => -(n : Int))
    else if c = '+' then (parseDigits rest).map (fun n => (n : Int))
    else (parseDigits (c :: rest)).map (fun n => (n : Int))

/-- Model of Python `str(i)` / f-string `{i}` for an int. -/
def intStr (i : Int) : String :=
  if i < 0 then ⟨'-' :: natDigits i.natAbs⟩ else ⟨natDigits i.natAbs⟩

/-- Left-pad a digit list with zeros up to a given width. -/
def zeroPad (w : Nat) (l : List Char) : List Char :=
  List.replicate (w - l.length) '0' ++ l

/-- Model of Python format spec `03d`: zero-pad to total width three,
the sign included in the width. -/
def intStr03 (i : Int) : String :=
  if i < 0 then ⟨'-' :: zeroPad 2 (natDigits i.natAbs)⟩
  else ⟨zeroPad 3 (natDigits i.natAbs)⟩

/-- Model of Python string slicing `s[n:]` (the ids are ASCII, so code
points and characters coincide). -/
def strDrop (n : Nat) (s : String) : String := ⟨s.data.drop n⟩

/-- Model of Python `s.startswith(p)`. -/
def strStarts (s p : String) : Bool := p.data.isPrefixOf s.data

/-- Model of `bcrypt.hashpw(password, salt)`: the digest is represented
as the scheme marker, the salt and the plaintext, dollar-separated (the
real digest is opaque; this representation preserves exactly the
observable behavior: a recognizable `$2` marker and verifiability
against the hashed plaintext). Salts never contain a dollar sign. -/
def bcrypt_hashpw (password salt : String) : String :=
  "$2b$" ++ salt ++ "$" ++ password

/-- Dollar-separated segments of a character list (the list analogue of
`stored.split("$")`, kept structural so that it evaluates). -/
def splitOnDollar : List Char → List (List Char)
  | [] => [[]]
  | c :: rest =>
    match splitOnDollar rest with
    | [] => [[c]]
    | h :: t => if c = '$' then [] :: h :: t else (c :: h) :: t

/-- Re-join dollar-separated segments. -/
def joinDollar : List (List Char) → List Char
  | [] => []
  | [h] => h
  | h :: t => h ++ '$' :: joinDollar t

/-- Model of `bcrypt.checkpw(password, stored)`: succeeds exactly when
`stored` is a digest of `password`. -/
def bcrypt_checkpw (password stored : String) : Bool :=
  match splitOnDollar stored.data with
  | [] :: ['2', 'b'] :: _ :: rest => joinDollar rest == password.data
  | _ => false

/-- Python `max` over a list of ints (None on the empty list, where
Python raises; the source never calls it on an empty list). -/
def listMax : List Int → Option Int
  | [] => none
  | x :: xs => some (xs.foldl max x)

/-- Whether every document with an `id` field holds a string there.  A
non-string id makes `.startswith` raise `AttributeError`, which the
generators catch and turn into the seed id. -/
def idsOk (docs : List Doc) : Bool :=
  docs.all (fun d =>
    match Doc.get d "id" with
    | some v => v.isStr
    | none => true)

/-- The successfully parsed numeric id suffixes of company documents:
string ids starting with `PEPRE-` whose remainder parses as an int
(the source loop of `get_next_company_id`, lines 17-25). -/
def companySuffixes (docs : List Doc) : List Int :=
  docs.filterMap (fun d =>
    match Doc.get d "id" with
    | some (Val.vStr s) =>
      if strStarts s "PEPRE-" then python_int (strDrop 6 s) else none
    | _ => none)

/-- The successfully parsed numeric id suffixes of employee documents:
string ids starting with `EMP` whose remainder parses as an int
(the source loop of `get_next_employee_id`, lines 51-59). -/
def employeeSuffixes (docs : List Doc) : List Int :=
  docs.filterMap (fun d =>
    match Doc.get d "id" with
    | some (Val.vStr s) =>
      if strStarts s "EMP" then python_int (strDrop 3 s) else none
    | _ => none)

/-- get_next_company_id (company-service/api/service.py, lines 8-34),
applied to the current collection contents.  The AttributeError raised
by a non-string id aborts to the seed-id fallback; that guard is checked
first here, which yields the same result in every case because the empty
collection passes it vacuously. -/
def get_next_company_id (companies : List Doc) : String :=
  if !(idsOk companies) then "PEPRE-1000"
  else if companies.isEmpty then "PEPRE-1000"
  else
    match listMax (companySuffixes companies) with
    | none => "PEPRE-1000"
    | some m => "PEPRE-" ++ intStr (m + 1)

/-- get_next_employee_id (employee-service/api/service.py, lines 42-69),
applied to the current collection contents; same fallback structure as
the company generator, with the `EMP` format and 3-digit zero padding. -/
def get_next_employee_id (employees : List Doc) : String :=
  if !(idsOk employees) then "EMP001"
  else if employees.isEmpty then "EMP001"
  else
    match listMax (employeeSuffixes employees) with
    | none => "EMP001"
    | some m => "EMP" ++ intStr03 (m + 1)

/-- The static required-field list of add_company. -/
def companyRequired : List String := ["name", "size", "email"]

/-- The static required-field list of add_employee. -/
def employeeRequired : List String :=
  ["name", "date_of_birth", "email", "address", "phone_number",
   "designation", "employee_shift_hours"]

/-- Python check `field not in data or data[field] in [None, ""]`. -/
def fieldAbsent (d : Doc) (f : String) : Bool :=
  match Doc.get d f with
  | none => true
  | some Val.vNull => true
  | some (Val.vStr "") => true
  | some _ => false

/-- The missing-or-empty required fields, in required-list order
(the list comprehension of the registration validators). -/
def missingFields (required : List String) (d : Doc) : List String :=
  required.filter (fun f => fieldAbsent d f)

/-- Copy each listed field from the input when present (the chain of
`if f in data: record[f] = data[f]` statements). -/
def addOptionals (data : Doc) : List String → Doc → Doc
  | [], d => d
  | f :: rest, d =>
    addOptionals data rest
      (if Doc.hasKey data f then Doc.set d f (Doc.getD data f Val.vNull) else d)

/-- The optional fields of a company record, in source order. -/
def companyOptional : List String :=
  ["admin_name", "address", "phone_number", "industry", "website"]

/-- The optional fields of an employee record, in source order. -/
def employeeOptional : List String := ["age", "blood_type", "ctc"]

/-- The company record assembled by add_company (lines 60-79): required
fields, id, the two separate creation-time clock reads, then the
optional fields present in the input. -/
def companyRecord (now1 now2 cid : String) (data : Doc) : Doc :=
  addOptionals data companyOptional
    [("id", Val.vStr cid),
     ("name", Doc.getD data "name" Val.vNull),
     ("size", Doc.getD data "size" Val.vNull),
     ("email", Doc.getD data "email" Val.vNull),
     ("created_at", Val.vStr now1),
     ("updated_at", Val.vStr now2)]

/-- The employee record assembled by add_employee (lines 103-123):
required fields, id, the hash of the fixed password, one creation-time
clock read, a null last_login, then the optional fields present in the
input.  The record carries no updated_at field. -/
def employeeRecord (now salt eid : String) (data : Doc) : Doc :=
  addOptionals data employeeOptional
    [("id", Val.vStr eid),
     ("name", Doc.getD data "name" Val.vNull),
     ("date_of_birth", Doc.getD data "date_of_birth" Val.vNull),
     ("email", Doc.getD data "email" Val.vNull),
     ("address", Doc.getD data "address" Val.vNull),
     ("phone_number", Doc.getD data "phone_number" Val.vNull),
     ("designation", Doc.getD data "designation" Val.vNull),
     ("password", Val.vStr (bcrypt_hashpw "admin" salt)),
     ("employee_shift_hours", Doc.getD data "employee_shift_hours" Val.vNull),
     ("created_at", Val.vStr now),
     ("last_login", Val.vNull)]

/-- add_company (company-service/api/service.py, lines 36-89).  The two
`now` parameters stand for the two separate utcnow() calls that fill
created_at and updated_at. -/
def add_company (now1 now2 : String) (store : Store) (data : Doc) : Resp × Store :=
  if data.isEmpty then (response_wrapper 400 "No data provided" .pNone, store)
  else
    let missing := missingFields companyRequired data
    if missing = [] then
      let email := Doc.getD data "email" Val.vNull
      if Store.byField store "email" email = [] then
        let cid := get_next_company_id (Store.getAll store)
        let record := companyRecord now1 now2 cid data
        (response_wrapper 201 "Company registered successfully" (.pDoc record),
         Store.addDoc store cid record)
      else (response_wrapper 400 "Company with this email already exists" .pNone, store)
    else
      (response_wrapper 400
        ("Missing required fields: " ++ String.intercalate ", " missing) .pNone, store)

/-- add_employee (employee-service/api/service.py, lines 71-139).  The
response copies the stored record, deletes the hashed password and
re-adds a `password` key holding the fixed plaintext. -/
def add_employee (now salt : String) (store : Store) (data : Doc) : Resp × Store :=
  if data.isEmpty then (response_wrapper 400 "No data provided" .pNone, store)
  else
    let missing := missingFields employeeRequired data
    if missing = [] then
      let email := Doc.getD data "email" Val.vNull
      if Store.byField store "email" email = [] then
        let eid := get_next_employee_id (Store.getAll store)
        let record := employeeRecord now salt eid data
        let respDoc := Doc.set (Doc.erase record "password") "password" (Val.vStr "admin")
        (response_wrapper 201
          ("Employee registered successfully with standard password "
            ++ squo ++ "admin" ++ squo)
          (.pDoc respDoc),
         Store.addDoc store eid record)
      else (response_wrapper 400 "Employee with this email already exists" .pNone, store)
    else
      (response_wrapper 400
        ("Missing required fields: " ++ String.intercalate ", " missing) .pNone, store)

/-- Outcome of the email-uniqueness loop of the updaters. -/
inductive ScanOut where
  | ok
  | conflict
  | keyErr
deriving DecidableEq

/-- The loop `for x in matches: if x["id"] != self_id: return Conflict`
of the updaters.  A match without an `id` key raises KeyError. -/
def emailConflictScan (selfId : String) : List Doc → ScanOut
  | [] => .ok
  | d :: rest =>
    match Doc.get d "id" with
    | none => .keyErr
    | some v => if v = Val.vStr selfId then emailConflictScan selfId rest else .conflict

/-- The email re-validation step shared by both updaters: when the input
carries an `email` different from the stored one, scan the collection
for another holder of that value.  Returns the early error response, if
any; reading the stored email of a record without one raises KeyError
(modelled with the verbatim `str(KeyError)` message text). -/
def emailRecheck (errCtx conflictMsg selfId : String) (store : Store)
    (existing data : Doc) : Option Resp :=
  if Doc.hasKey data "email" then
    match Doc.get existing "email" with
    | none => some (response_wrapper 500 (errCtx ++ squo ++ "email" ++ squo) .pNone)
    | some oldv =>
      if Doc.getD data "email" Val.vNull ≠ oldv then
        match emailConflictScan selfId
            (Store.byField store "email" (Doc.getD data "email" Val.vNull)) with
        | .ok => none
        | .conflict => some (response_wrapper 400 conflictMsg .pNone)
        | .keyErr => some (response_wrapper 500 (errCtx ++ squo ++ "id" ++ squo) .pNone)
      else none
  else none

/-- update_company (company-service/api/service.py, lines 119-151). -/
def update_company (now : String) (store : Store) (company_id : String)
    (data : Doc) : Resp × Store :=
  if company_id = "" then (response_wrapper 400 "Company ID is required" .pNone, store)
  else
    match Store.getDoc store company_id with
    | none => (response_wrapper 404 "Company not found" .pNone, store)
    | some existing =>
      if existing.isEmpty then (response_wrapper 404 "Company not found" .pNone, store)
      else
        match emailRecheck "Error updating company: "
            "Email already in use by another company" company_id store existing data with
        | some r => (r, store)
        | none =>
          let data2 := Doc.set data "updated_at" (Val.vStr now)
          let store2 := Store.updateDoc store company_id data2
          (response_wrapper 200 "Company updated successfully"
            (.pDoc (Store.getDocD store2 company_id [])), store2)

/-- Outcome of the password branch of update_employee. -/
inductive PwOut where
  | ok (data1 respData : Doc)
  | encErr
deriving DecidableEq

/-- The password branch of update_employee (lines 163-179): the reset
flag replaces any supplied password by the hash of the fixed plaintext
and is stripped; a truthy supplied password is hashed; a falsy one is
dropped from the update.  Hashing a truthy non-string raises
AttributeError at `.encode`. -/
def pwBranch (salt : String) (data : Doc) : PwOut :=
  if Doc.get data "update_password" = some (Val.vBool true) then
    .ok (Doc.erase (Doc.set data "password" (Val.vStr (bcrypt_hashpw "admin" salt)))
          "update_password")
        [("password", Val.vStr "admin")]
  else
    match Doc.get data "password" with
    | none => .ok data []
    | some (Val.vStr s) =>
      if s = "" then .ok (Doc.erase data "password") []
      else .ok (Doc.set data "password" (Val.vStr (bcrypt_hashpw s salt))) []
    | some (Val.vBool true) => .encErr
    | some _ => .ok (Doc.erase data "password") []

/-- update_employee (employee-service/api/service.py, lines 142-198).
The response merges the freshly fetched stored record into the
response-data dict, a merge that overwrites its entries. -/
def update_employee (now salt : String) (store : Store) (employee_id : String)
    (data : Doc) : Resp × Store :=
  if employee_id = "" then (response_wrapper 400 "Employee ID is required" .pNone, store)
  else
    match Store.getDoc store employee_id with
    | none => (response_wrapper 404 "Employee not found" .pNone, store)
    | some existing =>
      if existing.isEmpty then (response_wrapper 404 "Employee not found" .pNone, store)
      else
        match emailRecheck "Error updating employee: "
            "Email already in use by another employee" employee_id store existing data with
        | some r => (r, store)
        | none =>
          match pwBranch salt data with
          | .encErr =>
            (response_wrapper 500
              ("Error updating employee: " ++ squo ++ "bool" ++ squo
                ++ " object has no attribute " ++ squo ++ "encode" ++ squo) .pNone, store)
          | .ok data1 respData =>
            let data2 := Doc.set data1 "updated_at" (Val.vStr now)
            let store2 := Store.updateDoc store employee_id data2
            (response_wrapper 200 "Employee updated successfully"
              (.pDoc (Doc.updateWith respData (Store.getDocD store2 employee_id []))),
             store2)

/-- login_employee (employee-service/api/service.py, lines 200-250).
`lastLoginWriteFail = some m` models the last-login store write raising
an exception with text `m`: the outer handler turns it into a 500
response.  `none` models the write succeeding. -/
def login_employee (now : String) (lastLoginWriteFail : Option String)
    (store : Store) (data : Doc) : Resp × Store :=
  if data.isEmpty || !(Doc.hasKey data "email" && Doc.hasKey data "password") then
    (response_wrapper 400 "Email and password are required" .pNone, store)
  else
    let email := Doc.getD data "email" Val.vNull
    let password := Doc.getD data "password" Val.vNull
    match Store.byField store "email" email with
    | [] => (response_wrapper 401 "Invalid email or password" .pNone, store)
    | employee :: _ =>
      let stored := Doc.get employee "password"
      if !(match stored with | some v => v.truthy | none => false) then
        (response_wrapper 401 "Invalid password format" .pNone, store)
      else
        match stored with
        | some (Val.vStr sp) =>
          if !(strStarts sp "$2") then
            (response_wrapper 401 "Invalid stored password format" .pNone, store)
          else
            match password with
            | Val.vStr pw =>
              if !(bcrypt_checkpw pw sp) then
                (response_wrapper 401 "Invalid email or password" .pNone, store)
              else
                match Doc.get employee "id" with
                | some (Val.vStr eid) =>
                  match lastLoginWriteFail with
                  | some m =>
                    (response_wrapper 500 ("Error during login: " ++ m) .pNone, store)
                  | none =>
                    (response_wrapper 200 "Login successful" (.pDoc employee),
                     Store.updateDoc store eid [("last_login", Val.vStr now)])
                | some _ =>
                  (response_wrapper 500 "Error during login: invalid document id"
                    .pNone, store)
                | none =>
                  (response_wrapper 500
                    ("Error during login: " ++ squo ++ "id" ++ squo) .pNone, store)
            | _ =>
              (response_wrapper 500
                ("Password verification system error: " ++ squo
                  ++ (match password with | Val.vBool _ => "bool" | _ => "NoneType")
                  ++ squo ++ " object has no attribute " ++ squo ++ "encode" ++ squo)
                .pNone, store)
        | _ =>
          (response_wrapper 500
            ("Error during login: " ++ squo ++ "bool" ++ squo
              ++ " object has no attribute " ++ squo ++ "startswith" ++ squo)
            .pNone, store)

/-- The login falsiness check on the stored password (`if not stored_password:`):
true when the key is absent or the value is falsy. -/
def pwMissing (emp : Doc) : Bool :=
  match Doc.get emp "password" with
  | some v => !v.truthy
  | none => true

/-- Value of an all-digit character list read as a decimal numeral. -/
def digitsVal (l : List Char) : Nat :=
  l.foldl (fun a c => a * 10 + digitVal c) 0

/-!  Lemmas about the document and store operations. -/

theorem Doc.get_set_same (d : Doc) (k : String) (v : Val) :
    Doc.get (Doc.set d k v) k = some v := by
  induction d with
  | nil => simp [Doc.set, Doc.get]
  | cons p rest ih =>
    obtain ⟨k1, v1⟩ := p
    by_cases h : k1 = k
    · simp [Doc.set, h, Doc.get]
    · simp [Doc.set, h, Doc.get, ih]

theorem Doc.get_set_ne (d : Doc) (k k2 : String) (v : Val) (h : k ≠ k2) :
    Doc.get (Doc.set d k v) k2 = Doc.get d k2 := by
  induction d with
  | nil => simp [Doc.set, Doc.get, h]
  | cons p rest ih =>
    obtain ⟨k1, v1⟩ := p
    by_cases h1 : k1 = k
    · subst h1
      simp [Doc.set, Doc.get, h]
    · simp [Doc.set, h1, Doc.get, ih]

theorem Doc.get_erase_ne (d : Doc) (k k2 : String) (h : k ≠ k2) :
    Doc.get (Doc.erase d k) k2 = Doc.get d k2 := by
  induction d with
  | nil => simp [Doc.erase]
  | cons p rest ih =>
    obtain ⟨k1, v1⟩ := p
    by_cases h1 : k1 = k
    · subst h1
      simp [Doc.erase, Doc.get, h]
    · simp [Doc.erase, h1, Doc.get, ih]

theorem Doc.hasKey_set_ne (d : Doc) (k k2 : String) (v : Val) (h : k ≠ k2) :
    Doc.hasKey (Doc.set d k v) k2 = Doc.hasKey d k2 := by
  induction d with
  | nil => simp [Doc.set, Doc.hasKey, h]
  | cons p rest ih =>
    obtain ⟨k1, v1⟩ := p
    by_cases h1 : k1 = k
    · subst h1
      simp [Doc.set, Doc.hasKey, h]
    · simp [Doc.set, h1, Doc.hasKey, ih]

theorem Doc.hasKey_erase_ne (d : Doc) (k k2 : String) (h : k ≠ k2) :
    Doc.hasKey (Doc.erase d k) k2 = Doc.hasKey d k2 := by
  induction d with
  | nil => simp [Doc.erase]
  | cons p rest ih =>
    obtain ⟨k1, v1⟩ := p
    by_cases h1 : k1 = k
    · subst h1
      simp [Doc.erase, Doc.hasKey, h]
    · simp [Doc.erase, h1, Doc.hasKey, ih]

theorem Doc.hasKey_eq_isSome (d : Doc) (k : String) :
    Doc.hasKey d k = (Doc.get d k).isSome := by
  induction d with
  | nil => rfl
  | cons p rest ih =>
    obtain ⟨k1, v1⟩ := p
    by_cases h : k1 = k
    · simp [Doc.hasKey, Doc.get, h]
    · simp [Doc.hasKey, Doc.get, h, ih]

theorem Doc.get_updateWith_of_not_key (patch : Doc) (d : Doc) (f : String)
    (h : Doc.hasKey patch f = false) :
    Doc.get (Doc.updateWith d patch) f = Doc.get d f := by
  induction patch generalizing d with
  | nil => rfl
  | cons p rest ih =>
    obtain ⟨k, v⟩ := p
    simp only [Doc.hasKey, Bool.or_eq_false_iff, decide_eq_false_iff_not] at h
    simp only [Doc.updateWith]
    rw [ih _ h.2, Doc.get_set_ne _ _ _ _ h.1]

theorem Store.getDoc_updateDoc (s : Store) (k : String) (patch : Doc) (k2 : String) :
    Store.getDoc (Store.updateDoc s k patch) k2 =
      if k = k2 then (Store.getDoc s k2).map (fun d => Doc.updateWith d patch)
      else Store.getDoc s k2 := by
  induction s with
  | nil => simp [Store.updateDoc, Store.getDoc]
  | cons p rest ih =>
    obtain ⟨k1, d1⟩ := p
    by_cases h1 : k1 = k
    · subst h1
      by_cases h2 : k1 = k2
      · subst h2
        simp [Store.updateDoc, Store.getDoc]
      · simp [Store.updateDoc, Store.getDoc, h2, ih]
    · by_cases h2 : k1 = k2
      · subst h2
        simp [Store.updateDoc, Store.getDoc, h1, Ne.symm h1]
      · simp [Store.updateDoc, Store.getDoc, h1, h2, ih]


theorem Store.getDoc_addDoc_same (s : Store) (k : String) (d : Doc) :
    Store.getDoc (Store.addDoc s k d) k = some d := by
  induction s with
  | nil => simp [Store.addDoc, Store.getDoc]
  | cons p rest ih =>
    obtain ⟨k1, d1⟩ := p
    by_cases h : k1 = k
    · simp [Store.addDoc, h, Store.getDoc]
    · simp [Store.addDoc, h, Store.getDoc, ih]

theorem Store.getDocD_updateDoc_of_not_key (s : Store) (k : String) (patch : Doc)
    (f : String) (hp : Doc.hasKey patch f = false) (k2 : String) :
    Doc.get (Store.getDocD (Store.updateDoc s k patch) k2 []) f =
      Doc.get (Store.getDocD s k2 []) f := by
  unfold Store.getDocD
  rw [Store.getDoc_updateDoc]
  by_cases h : k = k2
  · simp only [h, if_pos rfl]
    cases Store.getDoc s k2 with
    | none => rfl
    | some d => simp [Doc.get_updateWith_of_not_key _ _ _ hp]
  · rw [if_neg h]

/-!  Lemmas about decimal parsing and formatting. -/

theorem isDigit_digitChar (n : Nat) : (digitChar n).isDigit = true := by
  unfold digitChar
  split_ifs <;> decide

theorem digitVal_digitChar {n : Nat} (h : n < 10) : digitVal (digitChar n) = n := by
  unfold digitChar
  split_ifs with h0 h1 h2 h3 h4 h5 h6 h7 h8
  · subst h0; decide
  · subst h1; decide
  · subst h2; decide
  · subst h3; decide
  · subst h4; decide
  · subst h5; decide
  · subst h6; decide
  · subst h7; decide
  · subst h8; decide
  · have h9 : n = 9 := by omega
    subst h9; decide

theorem digitsVal_append (l : List Char) (c : Char) :
    digitsVal (l ++ [c]) = digitsVal l * 10 + digitVal c := by
  simp [digitsVal, List.foldl_append]

theorem digitsVal_natDigits (n : Nat) : digitsVal (natDigits n) = n := by
  induction n using Nat.strong_induction_on with
  | _ n ih =>
    rw [natDigits]
    split
    · next h => simp [digitsVal, digitVal_digitChar h]
    · next h =>
      rw [digitsVal_append, ih (n / 10) (Nat.div_lt_self (by omega) (by omega)),
        digitVal_digitChar (Nat.mod_lt _ (by omega))]
      omega

theorem natDigits_ne_nil (n : Nat) : natDigits n ≠ [] := by
  rw [natDigits]
  split
  · simp
  · simp

theorem natDigits_all_digits (n : Nat) : (natDigits n).all Char.isDigit = true := by
  induction n using Nat.strong_induction_on with
  | _ n ih =>
    rw [natDigits]
    split
    · simp [isDigit_digitChar]
    · next h =>
      simp [List.all_append, ih (n / 10) (Nat.div_lt_self (by omega) (by omega)),
        isDigit_digitChar]

theorem parseDigits_of_digits (l : List Char) (hne : l ≠ [])
    (hall : l.all Char.isDigit = true) :
    parseDigits l = some (digitsVal l) := by
  unfold parseDigits
  rw [if_pos]
  · rfl
  · simp [hall, List.isEmpty_iff, hne]

theorem replicate_zero_all_digits (k : Nat) :
    (List.replicate k '0').all Char.isDigit = true := by
  induction k with
  | zero => rfl
  | succ k ih => simp [List.replicate_succ, ih]

theorem digitsVal_replicate_zero_append (k : Nat) (l : List Char) :
    digitsVal (List.replicate k '0' ++ l) = digitsVal l := by
  induction k with
  | zero => rfl
  | succ k ih =>
    rw [List.replicate_succ, List.cons_append]
    show List.foldl (fun a c => a * 10 + digitVal c) (0 * 10 + digitVal '0') _ = _
    have : 0 * 10 + digitVal '0' = 0 := by decide
    rw [this]
    exact ih

theorem zeroPad_ne_nil (w : Nat) (l : List Char) (h : l ≠ []) : zeroPad w l ≠ [] := by
  unfold zeroPad
  simp [List.append_eq_nil, h]

theorem zeroPad_all_digits (w : Nat) (l : List Char) (h : l.all Char.isDigit = true) :
    (zeroPad w l).all Char.isDigit = true := by
  unfold zeroPad
  simp [List.all_append, h, replicate_zero_all_digits]

theorem digitsVal_zeroPad (w : Nat) (l : List Char) :
    digitsVal (zeroPad w l) = digitsVal l := by
  unfold zeroPad
  exact digitsVal_replicate_zero_append _ _

theorem python_int_of_digits (l : List Char) (hne : l ≠ [])
    (hall : l.all Char.isDigit = true) :
    python_int ⟨l⟩ = some ((digitsVal l : Nat) : Int) := by
  cases l with
  | nil => exact absurd rfl hne
  | cons c rest =>
    have hc : c.isDigit = true := by
      simp [List.all_cons] at hall
      exact hall.1
    have h1 : c ≠ '-' := by
      intro h
      rw [h] at hc
      exact absurd hc (by decide)
    have h2 : c ≠ '+' := by
      intro h
      rw [h] at hc
      exact absurd hc (by decide)
    show python_int ⟨c :: rest⟩ = _
    unfold python_int
    simp only [if_neg h1, if_neg h2]
    rw [parseDigits_of_digits _ (by simp) hall]
    rfl

theorem python_int_neg_of_digits (l : List Char) (hne : l ≠ [])
    (hall : l.all Char.isDigit = true) :
    python_int ⟨'-' :: l⟩ = some (-((digitsVal l : Nat) : Int)) := by
  show python_int ⟨'-' :: l⟩ = _
  unfold python_int
  simp only [if_pos rfl]
  rw [parseDigits_of_digits _ hne hall]
  rfl

theorem python_int_intStr (i : Int) : python_int (intStr i) = some i := by
  unfold intStr
  split
  · next h =>
    rw [python_int_neg_of_digits _ (natDigits_ne_nil _) (natDigits_all_digits _),
      digitsVal_natDigits]
    congr 1
    omega
  · next h =>
    rw [python_int_of_digits _ (natDigits_ne_nil _) (natDigits_all_digits _),
      digitsVal_natDigits]
    congr 1
    omega

theorem python_int_intStr03 (i : Int) : python_int (intStr03 i) = some i := by
  unfold intStr03
  split
  · next h =>
    rw [python_int_neg_of_digits _ (zeroPad_ne_nil _ _ (natDigits_ne_nil _))
        (zeroPad_all_digits _ _ (natDigits_all_digits _)),
      digitsVal_zeroPad, digitsVal_natDigits]
    congr 1
    omega
  · next h =>
    rw [python_int_of_digits _ (zeroPad_ne_nil _ _ (natDigits_ne_nil _))
        (zeroPad_all_digits _ _ (natDigits_all_digits _)),
      digitsVal_zeroPad, digitsVal_natDigits]
    congr 1
    omega

theorem le_foldl_max (x : Int) (xs : List Int) :
    ∀ y ∈ x :: xs, y ≤ xs.foldl max x := by
  induction xs generalizing x with
  | nil =>
    intro y hy
    simp at hy
    simp [hy]
  | cons a as ih =>
    intro y hy
    rw [List.foldl_cons]
    have hx : x ≤ List.foldl max (max x a) as :=
      le_trans (le_max_left x a) (ih (max x a) _ (List.mem_cons_self _ _))
    have ha : a ≤ List.foldl max (max x a) as :=
      le_trans (le_max_right x a) (ih (max x a) _ (List.mem_cons_self _ _))
    rcases List.mem_cons.mp hy with h | h
    · subst h; exact hx
    · rcases List.mem_cons.mp h with h2 | h2
      · subst h2; exact ha
      · exact ih (max x a) _ (List.mem_cons_of_mem _ h2)

theorem strDrop3_EMP (t : String) : strDrop 3 ("EMP" ++ t) = t := by
  obtain ⟨l⟩ := t
  rfl

theorem strDrop6_PEPRE (t : String) : strDrop 6 ("PEPRE-" ++ t) = t := by
  obtain ⟨l⟩ := t
  rfl

/-!  Behavior of the sequential id generators. -/

theorem get_next_company_id_spec (cs : List Doc) (h1 : idsOk cs = true)
    (x : Int) (xs : List Int) (h2 : companySuffixes cs = x :: xs) :
    get_next_company_id cs = "PEPRE-" ++ intStr (xs.foldl max x + 1) := by
  have hne : cs ≠ [] := by
    intro h
    rw [h] at h2
    exact absurd h2 (by simp [companySuffixes])
  unfold get_next_company_id
  rw [h1, h2]
  simp [listMax, List.isEmpty_iff, hne]

theorem get_next_employee_id_spec (es : List Doc) (h1 : idsOk es = true)
    (x : Int) (xs : List Int) (h2 : employeeSuffixes es = x :: xs) :
    get_next_employee_id es = "EMP" ++ intStr03 (xs.foldl max x + 1) := by
  have hne : es ≠ [] := by
    intro h
    rw [h] at h2
    exact absurd h2 (by simp [employeeSuffixes])
  unfold get_next_employee_id
  rw [h1, h2]
  simp [listMax, List.isEmpty_iff, hne]

/-- C3: for every collection of string-id documents containing at least
one id parsable as the entity prefix followed by an integer, the id
generator returns an id whose numeric suffix parses strictly greater
than every parsed suffix of existing ids of that type; unparsable or
foreign-prefix ids are skipped (they simply do not contribute a parsed
suffix). -/
theorem c3_generator_strictly_increasing (cs es : List Doc)
    (hc1 : idsOk cs = true) (he1 : idsOk es = true)
    (hc2 : companySuffixes cs ≠ []) (he2 : employeeSuffixes es ≠ []) :
    (∃ n : Int, python_int (strDrop 6 (get_next_company_id cs)) = some n ∧
      ∀ m ∈ companySuffixes cs, m < n) ∧
    (∃ n : Int, python_int (strDrop 3 (get_next_employee_id es)) = some n ∧
      ∀ m ∈ employeeSuffixes es, m < n) := by
  constructor
  · obtain ⟨x, xs, hx⟩ := List.exists_cons_of_ne_nil hc2
    refine ⟨xs.foldl max x + 1, ?_, ?_⟩
    · rw [get_next_company_id_spec cs hc1 x xs hx, strDrop6_PEPRE, python_int_intStr]
    · intro m hm
      rw [hx] at hm
      have := le_foldl_max x xs m hm
      omega
  · obtain ⟨x, xs, hx⟩ := List.exists_cons_of_ne_nil he2
    refine ⟨xs.foldl max x + 1, ?_, ?_⟩
    · rw [get_next_employee_id_spec es he1 x xs hx, strDrop3_EMP, python_int_intStr03]
    · intro m hm
      rw [hx] at hm
      have := le_foldl_max x xs m hm
      omega

theorem c3_witness :
    (∃ n : Int, python_int (strDrop 6 (get_next_company_id
        [[("id", Val.vStr "PEPRE-1200")], [("id", Val.vStr "other")]])) = some n ∧
      ∀ m ∈ companySuffixes [[("id", Val.vStr "PEPRE-1200")], [("id", Val.vStr "other")]],
        m < n) ∧
    (∃ n : Int, python_int (strDrop 3 (get_next_employee_id
        [[("id", Val.vStr "EMP007")]])) = some n ∧
      ∀ m ∈ employeeSuffixes [[("id", Val.vStr "EMP007")]], m < n) :=
  c3_generator_strictly_increasing _ _ (by decide) (by decide) (by decide) (by decide)

/-- C10: on a collection in which no id parses as the entity prefix plus
an integer (the empty collection included), the generators return
exactly the seed ids PEPRE-1000 and EMP001. -/
theorem c10_generator_seed (cs es : List Doc)
    (hc : companySuffixes cs = []) (he : employeeSuffixes es = []) :
    get_next_company_id cs = "PEPRE-1000" ∧ get_next_employee_id es = "EMP001" := by
  constructor
  · unfold get_next_company_id
    rw [hc]
    cases hb : idsOk cs with
    | false => simp
    | true =>
      cases hbe : cs.isEmpty with
      | true => simp
      | false => simp [listMax]
  · unfold get_next_employee_id
    rw [he]
    cases hb : idsOk es with
    | false => simp
    | true =>
      cases hbe : es.isEmpty with
      | true => simp
      | false => simp [listMax]

theorem c10_witness :
    companySuffixes ([] : List Doc) = [] ∧ employeeSuffixes ([] : List Doc) = [] ∧
    get_next_company_id [] = "PEPRE-1000" ∧ get_next_employee_id [] = "EMP001" :=
  ⟨rfl, rfl, (c10_generator_seed [] [] rfl rfl).1, (c10_generator_seed [] [] rfl rfl).2⟩

/-!  Branch characterizations of the registrars. -/

theorem add_company_conflict (now1 now2 : String) (store : Store) (data : Doc)
    (h1 : Doc.isEmpty data = false)
    (h2 : missingFields companyRequired data = [])
    (h3 : Store.byField store "email" (Doc.getD data "email" Val.vNull) ≠ []) :
    add_company now1 now2 store data =
      (response_wrapper 400 "Company with this email already exists" Payload.pNone,
       store) := by
  unfold add_company
  simp [h1, h2, h3]

theorem add_employee_conflict (now salt : String) (store : Store) (data : Doc)
    (h1 : Doc.isEmpty data = false)
    (h2 : missingFields employeeRequired data = [])
    (h3 : Store.byField store "email" (Doc.getD data "email" Val.vNull) ≠ []) :
    add_employee now salt store data =
      (response_wrapper 400 "Employee with this email already exists" Payload.pNone,
       store) := by
  unfold add_employee
  simp [h1, h2, h3]

theorem add_company_success (now1 now2 : String) (store : Store) (data : Doc)
    (h1 : Doc.isEmpty data = false)
    (h2 : missingFields companyRequired data = [])
    (h3 : Store.byField store "email" (Doc.getD data "email" Val.vNull) = []) :
    add_company now1 now2 store data =
      (response_wrapper 201 "Company registered successfully"
        (Payload.pDoc (companyRecord now1 now2
          (get_next_company_id (Store.getAll store)) data)),
       Store.addDoc store (get_next_company_id (Store.getAll store))
         (companyRecord now1 now2 (get_next_company_id (Store.getAll store)) data)) := by
  unfold add_company
  simp [h1, h2, h3]

theorem add_employee_success (now salt : String) (store : Store) (data : Doc)
    (h1 : Doc.isEmpty data = false)
    (h2 : missingFields employeeRequired data = [])
    (h3 : Store.byField store "email" (Doc.getD data "email" Val.vNull) = []) :
    add_employee now salt store data =
      (response_wrapper 201
        ("Employee registered successfully with standard password "
          ++ squo ++ "admin" ++ squo)
        (Payload.pDoc (Doc.set (Doc.erase (employeeRecord now salt
            (get_next_employee_id (Store.getAll store)) data) "password")
          "password" (Val.vStr "admin"))),
       Store.addDoc store (get_next_employee_id (Store.getAll store))
         (employeeRecord now salt (get_next_employee_id (Store.getAll store)) data)) := by
  unfold add_employee
  simp [h1, h2, h3]

/-- C4: when the store already holds an entity with the requested
identity-field (email) value, a well-formed second registration returns
status 400 with a conflict message and null data, and the store is left
exactly as it was (so the first entity is unmodified), for both entity
types. -/
theorem c4_duplicate_identity_conflict (now1 now2 now salt : String)
    (cs es : Store) (cdata edata : Doc)
    (hc1 : Doc.isEmpty cdata = false)
    (hc2 : missingFields companyRequired cdata = [])
    (hc3 : Store.byField cs "email" (Doc.getD cdata "email" Val.vNull) ≠ [])
    (he1 : Doc.isEmpty edata = false)
    (he2 : missingFields employeeRequired edata = [])
    (he3 : Store.byField es "email" (Doc.getD edata "email" Val.vNull) ≠ []) :
    add_company now1 now2 cs cdata =
      (response_wrapper 400 "Company with this email already exists" Payload.pNone, cs) ∧
    add_employee now salt es edata =
      (response_wrapper 400 "Employee with this email already exists" Payload.pNone, es) :=
  ⟨add_company_conflict now1 now2 cs cdata hc1 hc2 hc3,
   add_employee_conflict now salt es edata he1 he2 he3⟩

theorem c4_witness :
    add_company "t1" "t2"
        [("PEPRE-1000", [("id", Val.vStr "PEPRE-1000"), ("email", Val.vStr "a@x.com")])]
        [("name", Val.vStr "Acme"), ("size", Val.vStr "50"),
         ("email", Val.vStr "a@x.com")] =
      (response_wrapper 400 "Company with this email already exists" Payload.pNone,
       [("PEPRE-1000", [("id", Val.vStr "PEPRE-1000"), ("email", Val.vStr "a@x.com")])]) ∧
    add_employee "t" "S"
        [("EMP001", [("id", Val.vStr "EMP001"), ("email", Val.vStr "b@x.com")])]
        [("name", Val.vStr "Bob"), ("date_of_birth", Val.vStr "1990-01-01"),
         ("email", Val.vStr "b@x.com"), ("address", Val.vStr "A"),
         ("phone_number", Val.vStr "1"), ("designation", Val.vStr "Dev"),
         ("employee_shift_hours", Val.vStr "9-5")] =
      (response_wrapper 400 "Employee with this email already exists" Payload.pNone,
       [("EMP001", [("id", Val.vStr "EMP001"), ("email", Val.vStr "b@x.com")])]) :=
  c4_duplicate_identity_conflict "t1" "t2" "t" "S" _ _ _ _
    (by decide) (by decide) (by decide) (by decide) (by decide) (by decide)

/-- C5 counterexample: the empty input map has every required field
absent, yet the response message is the generic `No data provided`
rather than one naming the missing required fields, so the claim as
stated fails on the empty map (its status is still 400 and nothing is
persisted). -/
theorem c5_counterexample :
    missingFields companyRequired [] = companyRequired ∧
    (add_company "t1" "t2" [] []).1.status = 400 ∧
    (add_company "t1" "t2" [] []).1.msg = "No data provided" ∧
    (add_company "t1" "t2" [] []).1.msg ≠
      "Missing required fields: "
        ++ String.intercalate ", " (missingFields companyRequired []) := by
  refine ⟨rfl, rfl, rfl, ?_⟩
  decide

/-- C5 (amended): for every nonempty input map with at least one
missing-or-empty required field, registration returns status 400 with a
message naming exactly the missing-or-empty required fields (in the
fixed required-field order), null data, and an unchanged store; the
empty map instead yields 400 `No data provided`. -/
theorem c5_missing_fields_rejected (now1 now2 now salt : String)
    (cs es : Store) (cdata edata : Doc)
    (hc1 : Doc.isEmpty cdata = false)
    (hc2 : missingFields companyRequired cdata ≠ [])
    (he1 : Doc.isEmpty edata = false)
    (he2 : missingFields employeeRequired edata ≠ []) :
    add_company now1 now2 cs cdata =
      (response_wrapper 400 ("Missing required fields: "
        ++ String.intercalate ", " (missingFields companyRequired cdata))
        Payload.pNone, cs) ∧
    add_employee now salt es edata =
      (response_wrapper 400 ("Missing required fields: "
        ++ String.intercalate ", " (missingFields employeeRequired edata))
        Payload.pNone, es) := by
  constructor
  · unfold add_company
    simp [hc1, hc2]
  · unfold add_employee
    simp [he1, he2]

theorem c5_witness :
    add_company "t1" "t2" [] [("name", Val.vStr "Acme"), ("email", Val.vStr "")] =
      (response_wrapper 400 "Missing required fields: size, email" Payload.pNone, []) ∧
    add_employee "t" "S" [] [("name", Val.vStr "Bob"), ("email", Val.vStr "b@x.com")] =
      (response_wrapper 400
        ("Missing required fields: "
          ++ "date_of_birth, address, phone_number, designation, employee_shift_hours")
        Payload.pNone, []) := by
  have h := c5_missing_fields_rejected "t1" "t2" "t" "S" [] []
    [("name", Val.vStr "Acme"), ("email", Val.vStr "")]
    [("name", Val.vStr "Bob"), ("email", Val.vStr "b@x.com")]
    (by decide) (by decide) (by decide) (by decide)
  refine ⟨?_, ?_⟩
  · rw [h.1]
    decide
  · rw [h.2]
    decide

/-!  Field lookups in assembled records. -/

theorem addOptionals_get_not_mem (data : Doc) (fs : List String) (d : Doc) (f : String)
    (h : f ∉ fs) : Doc.get (addOptionals data fs d) f = Doc.get d f := by
  induction fs generalizing d with
  | nil => rfl
  | cons a rest ih =>
    simp only [List.mem_cons, not_or] at h
    unfold addOptionals
    rw [ih _ h.2]
    by_cases hk : Doc.hasKey data a = true
    · rw [if_pos hk, Doc.get_set_ne _ _ _ _ (fun e => h.1 e.symm)]
    · rw [if_neg hk]

theorem addOptionals_get_mem (data : Doc) (fs : List String) (d : Doc) (f : String)
    (hmem : f ∈ fs) (hnd : fs.Nodup) (hbase : Doc.get d f = none) :
    Doc.get (addOptionals data fs d) f = Doc.get data f := by
  induction fs generalizing d with
  | nil => simp at hmem
  | cons a rest ih =>
    unfold addOptionals
    rcases List.mem_cons.mp hmem with h | h
    · subst h
      have hrest : f ∉ rest := (List.nodup_cons.mp hnd).1
      rw [addOptionals_get_not_mem _ _ _ _ hrest]
      by_cases hk : Doc.hasKey data f = true
      · rw [if_pos hk, Doc.get_set_same]
        rw [Doc.hasKey_eq_isSome] at hk
        obtain ⟨v, hv⟩ := Option.isSome_iff_exists.mp hk
        simp [Doc.getD, hv]
      · rw [if_neg hk, hbase]
        have hk2 : Doc.hasKey data f = false := by simpa using hk
        rw [Doc.hasKey_eq_isSome] at hk2
        cases hg : Doc.get data f with
        | none => rfl
        | some v => rw [hg] at hk2; simp at hk2
    · have hna : a ∉ rest := (List.nodup_cons.mp hnd).1
      have hfa : f ≠ a := fun e => hna (e ▸ h)
      refine ih _ h (List.nodup_cons.mp hnd).2 ?_
      by_cases hk : Doc.hasKey data a = true
      · rw [if_pos hk, Doc.get_set_ne _ _ _ _ (Ne.symm hfa)]
        exact hbase
      · rw [if_neg hk]
        exact hbase

/-- C9 counterexample: on the concrete valid registrations below, the
assembled employee record carries created_at but no updated_at key at
all, and the assembled company record carries no last_login key at all,
so the claimed record shape (createdAt equal to updatedAt and lastLogin
null, for every successful registration) fails on the code. -/
theorem c9_counterexample :
    Doc.get (Store.getDocD (add_employee "t" "S" []
        [("name", Val.vStr "Bob"), ("date_of_birth", Val.vStr "1990-01-01"),
         ("email", Val.vStr "b@x.com"), ("address", Val.vStr "A"),
         ("phone_number", Val.vStr "1"), ("designation", Val.vStr "Dev"),
         ("employee_shift_hours", Val.vStr "9-5")]).2 "EMP001" [])
      "updated_at" = none ∧
    Doc.get (Store.getDocD (add_employee "t" "S" []
        [("name", Val.vStr "Bob"), ("date_of_birth", Val.vStr "1990-01-01"),
         ("email", Val.vStr "b@x.com"), ("address", Val.vStr "A"),
         ("phone_number", Val.vStr "1"), ("designation", Val.vStr "Dev"),
         ("employee_shift_hours", Val.vStr "9-5")]).2 "EMP001" [])
      "created_at" = some (Val.vStr "t") ∧
    Doc.get (Store.getDocD (add_company "t1" "t2" []
        [("name", Val.vStr "Acme"), ("size", Val.vStr "50"),
         ("email", Val.vStr "a@x.com")]).2 "PEPRE-1000" [])
      "last_login" = none := by
  decide

/-- C9 (amended): a successful company registration stores exactly the
assembled company record, whose created_at and updated_at hold the two
successive creation-time clock reads (hence are equal whenever the clock
does not tick between them) and which has no last_login key; a
successful employee registration stores exactly the assembled employee
record, whose created_at holds the creation-time clock read, whose
last_login is null, which has no updated_at key, and whose password
holds the hash of the fixed plaintext; both records carry the generated
id, the required fields from the input, and each optional field exactly
as present in the input. -/
theorem c9_record_shape (now1 now2 now salt : String) (cs es : Store)
    (cdata edata : Doc)
    (hc1 : Doc.isEmpty cdata = false)
    (hc2 : missingFields companyRequired cdata = [])
    (hc3 : Store.byField cs "email" (Doc.getD cdata "email" Val.vNull) = [])
    (he1 : Doc.isEmpty edata = false)
    (he2 : missingFields employeeRequired edata = [])
    (he3 : Store.byField es "email" (Doc.getD edata "email" Val.vNull) = []) :
    (Store.getDocD (add_company now1 now2 cs cdata).2
        (get_next_company_id (Store.getAll cs)) []
      = companyRecord now1 now2 (get_next_company_id (Store.getAll cs)) cdata) ∧
    (∀ cid : String,
      Doc.get (companyRecord now1 now2 cid cdata) "id" = some (Val.vStr cid) ∧
      Doc.get (companyRecord now1 now2 cid cdata) "name"
        = some (Doc.getD cdata "name" Val.vNull) ∧
      Doc.get (companyRecord now1 now2 cid cdata) "size"
        = some (Doc.getD cdata "size" Val.vNull) ∧
      Doc.get (companyRecord now1 now2 cid cdata) "email"
        = some (Doc.getD cdata "email" Val.vNull) ∧
      Doc.get (companyRecord now1 now2 cid cdata) "created_at"
        = some (Val.vStr now1) ∧
      Doc.get (companyRecord now1 now2 cid cdata) "updated_at"
        = some (Val.vStr now2) ∧
      Doc.get (companyRecord now1 now2 cid cdata) "last_login" = none ∧
      ∀ f ∈ companyOptional,
        Doc.get (companyRecord now1 now2 cid cdata) f = Doc.get cdata f) ∧
    (Store.getDocD (add_employee now salt es edata).2
        (get_next_employee_id (Store.getAll es)) []
      = employeeRecord now salt (get_next_employee_id (Store.getAll es)) edata) ∧
    (∀ eid : String,
      Doc.get (employeeRecord now salt eid edata) "id" = some (Val.vStr eid) ∧
      Doc.get (employeeRecord now salt eid edata) "email"
        = some (Doc.getD edata "email" Val.vNull) ∧
      Doc.get (employeeRecord now salt eid edata) "password"
        = some (Val.vStr (bcrypt_hashpw "admin" salt)) ∧
      Doc.get (employeeRecord now salt eid edata) "created_at"
        = some (Val.vStr now) ∧
      Doc.get (employeeRecord now salt eid edata) "last_login" = some Val.vNull ∧
      Doc.get (employeeRecord now salt eid edata) "updated_at" = none ∧
      ∀ f ∈ employeeOptional,
        Doc.get (employeeRecord now salt eid edata) f = Doc.get edata f) := by
  refine ⟨?_, ?_, ?_, ?_⟩
  · rw [add_company_success now1 now2 cs cdata hc1 hc2 hc3]
    unfold Store.getDocD
    rw [Store.getDoc_addDoc_same]
    rfl
  · intro cid
    refine ⟨?_, ?_, ?_, ?_, ?_, ?_, ?_, ?_⟩
    all_goals try
      (unfold companyRecord
       rw [addOptionals_get_not_mem _ _ _ _ (by decide)]
       simp [Doc.get])
    intro f hf
    fin_cases hf <;>
      (unfold companyRecord
       rw [addOptionals_get_mem _ _ _ _ (by decide) (by decide) (by simp [Doc.get])])
  · rw [add_employee_success now salt es edata he1 he2 he3]
    unfold Store.getDocD
    rw [Store.getDoc_addDoc_same]
    rfl
  · intro eid
    refine ⟨?_, ?_, ?_, ?_, ?_, ?_, ?_⟩
    all_goals try
      (unfold employeeRecord
       rw [addOptionals_get_not_mem _ _ _ _ (by decide)]
       simp [Doc.get])
    intro f hf
    fin_cases hf <;>
      (unfold employeeRecord
       rw [addOptionals_get_mem _ _ _ _ (by decide) (by decide) (by simp [Doc.get])])

theorem c9_witness :
    Store.getDocD (add_company "t1" "t2" []
        [("name", Val.vStr "Acme"), ("size", Val.vStr "50"),
         ("email", Val.vStr "a@x.com"), ("website", Val.vStr "w")]).2 "PEPRE-1000" []
      = companyRecord "t1" "t2" "PEPRE-1000"
          [("name", Val.vStr "Acme"), ("size", Val.vStr "50"),
           ("email", Val.vStr "a@x.com"), ("website", Val.vStr "w")] ∧
    Doc.get (companyRecord "t1" "t2" "PEPRE-1000"
        [("name", Val.vStr "Acme"), ("size", Val.vStr "50"),
         ("email", Val.vStr "a@x.com"), ("website", Val.vStr "w")]) "website"
      = some (Val.vStr "w") := by
  have h := c9_record_shape "t1" "t2" "t" "S" [] []
    [("name", Val.vStr "Acme"), ("size", Val.vStr "50"),
     ("email", Val.vStr "a@x.com"), ("website", Val.vStr "w")]
    [("name", Val.vStr "Bob"), ("date_of_birth", Val.vStr "1990-01-01"),
     ("email", Val.vStr "b@x.com"), ("address", Val.vStr "A"),
     ("phone_number", Val.vStr "1"), ("designation", Val.vStr "Dev"),
     ("employee_shift_hours", Val.vStr "9-5")]
    (by decide) (by decide) (by decide) (by decide) (by decide) (by decide)
  refine ⟨?_, ?_⟩
  · have h1 := h.1
    rwa [show get_next_company_id (Store.getAll []) = "PEPRE-1000" by decide] at h1
  · have h2 := (h.2.1 "PEPRE-1000").2.2.2.2.2.2.2 "website" (by decide)
    rw [h2]
    decide

/-!  Behavior of the authenticator. -/

theorem login_employee_verified (now : String) (fail : Option String) (store : Store)
    (data emp : Doc) (rest : List Doc) (sp pw eid : String)
    (h0 : Doc.isEmpty data = false)
    (h1 : Doc.hasKey data "email" = true)
    (h2 : Doc.hasKey data "password" = true)
    (h3 : Store.byField store "email" (Doc.getD data "email" Val.vNull) = emp :: rest)
    (h4 : Doc.get emp "password" = some (Val.vStr sp))
    (h5 : strStarts sp "$2" = true)
    (h6 : Doc.getD data "password" Val.vNull = Val.vStr pw)
    (h7 : bcrypt_checkpw pw sp = true)
    (h8 : Doc.get emp "id" = some (Val.vStr eid)) :
    login_employee now fail store data =
      (match fail with
       | some m => (response_wrapper 500 ("Error during login: " ++ m) Payload.pNone, store)
       | none =>
         (response_wrapper 200 "Login successful" (Payload.pDoc emp),
          Store.updateDoc store eid [("last_login", Val.vStr now)])) := by
  have hspne : sp ≠ "" := by
    intro h
    rw [h] at h5
    exact absurd h5 (by decide)
  cases fail with
  | some m =>
    unfold login_employee
    simp [h0, h1, h2, h3, h4, h5, h6, h7, h8, Val.truthy, hspne]
  | none =>
    unfold login_employee
    simp [h0, h1, h2, h3, h4, h5, h6, h7, h8, Val.truthy, hspne]

theorem addOptionals_hasKey_not_mem (data : Doc) (fs : List String) (d : Doc)
    (f : String) (h : f ∉ fs) :
    Doc.hasKey (addOptionals data fs d) f = Doc.hasKey d f := by
  induction fs generalizing d with
  | nil => rfl
  | cons a rest ih =>
    simp only [List.mem_cons, not_or] at h
    unfold addOptionals
    rw [ih _ h.2]
    by_cases hk : Doc.hasKey data a = true
    · rw [if_pos hk, Doc.hasKey_set_ne _ _ _ _ (fun e => h.1 e.symm)]
    · rw [if_neg hk]

/-- C1 counterexample: on concrete valid inputs, the employee register
response payload carries a `password` key, and the employee login
success payload is the stored record, whose `password` key holds the
stored bcrypt hash, so the claim that no public-operation response ever
contains a password or password-hash field fails on the code. -/
theorem c1_counterexample :
    Payload.hasPasswordKey (add_employee "t" "S" []
        [("name", Val.vStr "Bob"), ("date_of_birth", Val.vStr "1990-01-01"),
         ("email", Val.vStr "b@x.com"), ("address", Val.vStr "A"),
         ("phone_number", Val.vStr "1"), ("designation", Val.vStr "Dev"),
         ("employee_shift_hours", Val.vStr "9-5")]).1.payload = true ∧
    Payload.getField (login_employee "t2" none
        (add_employee "t" "S" []
          [("name", Val.vStr "Bob"), ("date_of_birth", Val.vStr "1990-01-01"),
           ("email", Val.vStr "b@x.com"), ("address", Val.vStr "A"),
           ("phone_number", Val.vStr "1"), ("designation", Val.vStr "Dev"),
           ("employee_shift_hours", Val.vStr "9-5")]).2
        [("email", Val.vStr "b@x.com"), ("password", Val.vStr "admin")]).1.payload
      "password" = some (Val.vStr (bcrypt_hashpw "admin" "S")) := by
  refine ⟨by decide, by decide⟩

/-- C1 (amended): the employee register response never contains the
password hash: its `password` field holds the fixed plaintext; the
company register response contains no password field at all; the
employee login success response, however, is the stored record returned
verbatim, password hash included. -/
theorem c1_password_exposure (now1 now2 now salt lnow : String) (cs es ls : Store)
    (cdata edata ldata emp : Doc) (rest : List Doc) (sp pw eid : String)
    (hc1 : Doc.isEmpty cdata = false)
    (hc2 : missingFields companyRequired cdata = [])
    (hc3 : Store.byField cs "email" (Doc.getD cdata "email" Val.vNull) = [])
    (he1 : Doc.isEmpty edata = false)
    (he2 : missingFields employeeRequired edata = [])
    (he3 : Store.byField es "email" (Doc.getD edata "email" Val.vNull) = [])
    (hl0 : Doc.isEmpty ldata = false)
    (hl1 : Doc.hasKey ldata "email" = true)
    (hl2 : Doc.hasKey ldata "password" = true)
    (hl3 : Store.byField ls "email" (Doc.getD ldata "email" Val.vNull) = emp :: rest)
    (hl4 : Doc.get emp "password" = some (Val.vStr sp))
    (hl5 : strStarts sp "$2" = true)
    (hl6 : Doc.getD ldata "password" Val.vNull = Val.vStr pw)
    (hl7 : bcrypt_checkpw pw sp = true)
    (hl8 : Doc.get emp "id" = some (Val.vStr eid)) :
    Payload.getField (add_employee now salt es edata).1.payload "password"
      = some (Val.vStr "admin") ∧
    Payload.hasPasswordKey (add_company now1 now2 cs cdata).1.payload = false ∧
    (login_employee lnow none ls ldata).1.payload = Payload.pDoc emp := by
  refine ⟨?_, ?_, ?_⟩
  · rw [add_employee_success now salt es edata he1 he2 he3]
    show Doc.get (Doc.set _ "password" (Val.vStr "admin")) "password" = _
    rw [Doc.get_set_same]
  · rw [add_company_success now1 now2 cs cdata hc1 hc2 hc3]
    show Doc.hasKey
      (companyRecord now1 now2 (get_next_company_id (Store.getAll cs)) cdata)
      "password" = false
    unfold companyRecord
    rw [addOptionals_hasKey_not_mem _ _ _ _ (by decide)]
    simp [Doc.hasKey]
  · rw [login_employee_verified lnow none ls ldata emp rest sp pw eid
      hl0 hl1 hl2 hl3 hl4 hl5 hl6 hl7 hl8]
    rfl

theorem c1_witness :
    Payload.getField (add_employee "t" "S" []
        [("name", Val.vStr "Bob"), ("date_of_birth", Val.vStr "1990-01-01"),
         ("email", Val.vStr "b@x.com"), ("address", Val.vStr "A"),
         ("phone_number", Val.vStr "1"), ("designation", Val.vStr "Dev"),
         ("employee_shift_hours", Val.vStr "9-5")]).1.payload "password"
      = some (Val.vStr "admin") ∧
    Payload.hasPasswordKey (add_company "t1" "t2" []
        [("name", Val.vStr "Acme"), ("size", Val.vStr "50"),
         ("email", Val.vStr "a@x.com"), ("password", Val.vStr "pw")]).1.payload
      = false ∧
    (login_employee "t3" none
        [("EMP001", [("id", Val.vStr "EMP001"), ("email", Val.vStr "b@x.com"),
          ("password", Val.vStr (bcrypt_hashpw "admin" "S"))])]
        [("email", Val.vStr "b@x.com"), ("password", Val.vStr "admin")]).1.payload
      = Payload.pDoc [("id", Val.vStr "EMP001"), ("email", Val.vStr "b@x.com"),
          ("password", Val.vStr (bcrypt_hashpw "admin" "S"))] :=
  c1_password_exposure "t1" "t2" "t" "S" "t3" [] []
    [("EMP001", [("id", Val.vStr "EMP001"), ("email", Val.vStr "b@x.com"),
      ("password", Val.vStr (bcrypt_hashpw "admin" "S"))])]
    [("name", Val.vStr "Acme"), ("size", Val.vStr "50"),
     ("email", Val.vStr "a@x.com"), ("password", Val.vStr "pw")]
    [("name", Val.vStr "Bob"), ("date_of_birth", Val.vStr "1990-01-01"),
     ("email", Val.vStr "b@x.com"), ("address", Val.vStr "A"),
     ("phone_number", Val.vStr "1"), ("designation", Val.vStr "Dev"),
     ("employee_shift_hours", Val.vStr "9-5")]
    [("email", Val.vStr "b@x.com"), ("password", Val.vStr "admin")]
    [("id", Val.vStr "EMP001"), ("email", Val.vStr "b@x.com"),
     ("password", Val.vStr (bcrypt_hashpw "admin" "S"))]
    [] (bcrypt_hashpw "admin" "S") "admin" "EMP001"
    (by decide) (by decide) (by decide) (by decide) (by decide) (by decide)
    (by decide) (by decide) (by decide) (by decide) (by decide) (by decide)
    (by decide) (by decide) (by decide)

/-- C8 counterexample: on a concrete store holding a verifiable
employee, a login with the correct password whose last-login store
write raises returns status 500 with null data, not a success, so the
claimed best-effort behavior fails on the code (the write sits inside
the try block whose handler returns 500). -/
theorem c8_counterexample :
    (login_employee "t3" (some "deadline exceeded")
        [("EMP001", [("id", Val.vStr "EMP001"), ("email", Val.vStr "b@x.com"),
          ("password", Val.vStr (bcrypt_hashpw "admin" "S"))])]
        [("email", Val.vStr "b@x.com"), ("password", Val.vStr "admin")]).1.status
      = 500 ∧
    (login_employee "t3" (some "deadline exceeded")
        [("EMP001", [("id", Val.vStr "EMP001"), ("email", Val.vStr "b@x.com"),
          ("password", Val.vStr (bcrypt_hashpw "admin" "S"))])]
        [("email", Val.vStr "b@x.com"), ("password", Val.vStr "admin")]).1.payload
      = Payload.pNone ∧
    (login_employee "t3" none
        [("EMP001", [("id", Val.vStr "EMP001"), ("email", Val.vStr "b@x.com"),
          ("password", Val.vStr (bcrypt_hashpw "admin" "S"))])]
        [("email", Val.vStr "b@x.com"), ("password", Val.vStr "admin")]).1.status
      = 200 := by
  refine ⟨by decide, by decide, by decide⟩

/-- C8 (amended): for a login whose password verification succeeds, a
successful last-login persist yields status 200 with the stored record
returned verbatim (not sanitized) and the last_login field updated,
while a failing last-login persist makes the whole login fail with
status 500, null data, and an unchanged store. -/
theorem c8_last_login_best_effort (now : String) (store : Store)
    (data emp : Doc) (rest : List Doc) (sp pw eid : String)
    (h0 : Doc.isEmpty data = false)
    (h1 : Doc.hasKey data "email" = true)
    (h2 : Doc.hasKey data "password" = true)
    (h3 : Store.byField store "email" (Doc.getD data "email" Val.vNull) = emp :: rest)
    (h4 : Doc.get emp "password" = some (Val.vStr sp))
    (h5 : strStarts sp "$2" = true)
    (h6 : Doc.getD data "password" Val.vNull = Val.vStr pw)
    (h7 : bcrypt_checkpw pw sp = true)
    (h8 : Doc.get emp "id" = some (Val.vStr eid)) :
    login_employee now none store data =
      (response_wrapper 200 "Login successful" (Payload.pDoc emp),
       Store.updateDoc store eid [("last_login", Val.vStr now)]) ∧
    ∀ m : String, login_employee now (some m) store data =
      (response_wrapper 500 ("Error during login: " ++ m) Payload.pNone, store) := by
  constructor
  · exact login_employee_verified now none store data emp rest sp pw eid
      h0 h1 h2 h3 h4 h5 h6 h7 h8
  · intro m
    exact login_employee_verified now (some m) store data emp rest sp pw eid
      h0 h1 h2 h3 h4 h5 h6 h7 h8

theorem c8_witness :
    login_employee "t3" none
        [("EMP001", [("id", Val.vStr "EMP001"), ("email", Val.vStr "b@x.com"),
          ("password", Val.vStr (bcrypt_hashpw "admin" "S"))])]
        [("email", Val.vStr "b@x.com"), ("password", Val.vStr "admin")] =
      (response_wrapper 200 "Login successful"
        (Payload.pDoc [("id", Val.vStr "EMP001"), ("email", Val.vStr "b@x.com"),
          ("password", Val.vStr (bcrypt_hashpw "admin" "S"))]),
       Store.updateDoc
         [("EMP001", [("id", Val.vStr "EMP001"), ("email", Val.vStr "b@x.com"),
           ("password", Val.vStr (bcrypt_hashpw "admin" "S"))])]
         "EMP001" [("last_login", Val.vStr "t3")]) ∧
    login_employee "t3" (some "boom")
        [("EMP001", [("id", Val.vStr "EMP001"), ("email", Val.vStr "b@x.com"),
          ("password", Val.vStr (bcrypt_hashpw "admin" "S"))])]
        [("email", Val.vStr "b@x.com"), ("password", Val.vStr "admin")] =
      (response_wrapper 500 "Error during login: boom" Payload.pNone,
       [("EMP001", [("id", Val.vStr "EMP001"), ("email", Val.vStr "b@x.com"),
         ("password", Val.vStr (bcrypt_hashpw "admin" "S"))])]) := by
  have h := c8_last_login_best_effort "t3"
    [("EMP001", [("id", Val.vStr "EMP001"), ("email", Val.vStr "b@x.com"),
      ("password", Val.vStr (bcrypt_hashpw "admin" "S"))])]
    [("email", Val.vStr "b@x.com"), ("password", Val.vStr "admin")]
    [("id", Val.vStr "EMP001"), ("email", Val.vStr "b@x.com"),
     ("password", Val.vStr (bcrypt_hashpw "admin" "S"))]
    [] (bcrypt_hashpw "admin" "S") "admin" "EMP001"
    (by decide) (by decide) (by decide) (by decide) (by decide) (by decide)
    (by decide) (by decide) (by decide)
  exact ⟨h.1, h.2 "boom"⟩

/-- C7: for a well-formed login request (nonempty input carrying both
an email and a password key), each of these cases returns status 401
with null data and leaves the store unchanged: no entity matches the
identity value; the matched entity has no stored password (key absent
or value falsy); the stored password is a string not in recognizable
bcrypt format; or password verification fails. -/
theorem c7_login_unauthorized (now : String) (fail : Option String)
    (s : Store) (data : Doc)
    (h0 : Doc.isEmpty data = false)
    (h1 : Doc.hasKey data "email" = true)
    (h2 : Doc.hasKey data "password" = true) :
    (Store.byField s "email" (Doc.getD data "email" Val.vNull) = [] →
      login_employee now fail s data =
        (response_wrapper 401 "Invalid email or password" Payload.pNone, s)) ∧
    (∀ emp rest,
      Store.byField s "email" (Doc.getD data "email" Val.vNull) = emp :: rest →
      pwMissing emp = true →
      login_employee now fail s data =
        (response_wrapper 401 "Invalid password format" Payload.pNone, s)) ∧
    (∀ emp rest sp,
      Store.byField s "email" (Doc.getD data "email" Val.vNull) = emp :: rest →
      Doc.get emp "password" = some (Val.vStr sp) →
      strStarts sp "$2" = false →
      (login_employee now fail s data).1.status = 401 ∧
      (login_employee now fail s data).1.payload = Payload.pNone ∧
      (login_employee now fail s data).2 = s) ∧
    (∀ emp rest sp pw,
      Store.byField s "email" (Doc.getD data "email" Val.vNull) = emp :: rest →
      Doc.get emp "password" = some (Val.vStr sp) →
      strStarts sp "$2" = true →
      Doc.getD data "password" Val.vNull = Val.vStr pw →
      bcrypt_checkpw pw sp = false →
      login_employee now fail s data =
        (response_wrapper 401 "Invalid email or password" Payload.pNone, s)) := by
  refine ⟨?_, ?_, ?_, ?_⟩
  · intro hby
    unfold login_employee
    simp [h0, h1, h2, hby]
  · intro emp rest hby hpm
    unfold pwMissing at hpm
    unfold login_employee
    cases hg : Doc.get emp "password" with
    | none => simp [h0, h1, h2, hby, hg]
    | some v =>
      rw [hg] at hpm
      simp only [Bool.not_eq_true'] at hpm
      simp [h0, h1, h2, hby, hg, hpm]
  · intro emp rest sp hby hg hst
    by_cases hsp : sp = ""
    · subst hsp
      unfold login_employee
      simp [h0, h1, h2, hby, hg, Val.truthy, response_wrapper]
    · have hst2 : strStarts sp "$2" = false := hst
      unfold login_employee
      simp [h0, h1, h2, hby, hg, Val.truthy, hsp, hst2, response_wrapper]
  · intro emp rest sp pw hby hg hst hpw hck
    have hsp : sp ≠ "" := by
      intro h
      rw [h] at hst
      exact absurd hst (by decide)
    unfold login_employee
    simp [h0, h1, h2, hby, hg, Val.truthy, hsp, hst, hpw, hck]

theorem c7_witness :
    login_employee "t" none [] [("email", Val.vStr "z@x.com"), ("password", Val.vStr "p")] =
      (response_wrapper 401 "Invalid email or password" Payload.pNone, []) ∧
    login_employee "t" none
        [("EMP001", [("id", Val.vStr "EMP001"), ("email", Val.vStr "a@x.com"),
          ("password", Val.vNull)])]
        [("email", Val.vStr "a@x.com"), ("password", Val.vStr "p")] =
      (response_wrapper 401 "Invalid password format" Payload.pNone,
       [("EMP001", [("id", Val.vStr "EMP001"), ("email", Val.vStr "a@x.com"),
         ("password", Val.vNull)])]) ∧
    ((login_employee "t" none
        [("EMP001", [("id", Val.vStr "EMP001"), ("email", Val.vStr "a@x.com"),
          ("password", Val.vStr "plaintext")])]
        [("email", Val.vStr "a@x.com"), ("password", Val.vStr "p")]).1.status = 401 ∧
     (login_employee "t" none
        [("EMP001", [("id", Val.vStr "EMP001"), ("email", Val.vStr "a@x.com"),
          ("password", Val.vStr "plaintext")])]
        [("email", Val.vStr "a@x.com"), ("password", Val.vStr "p")]).1.payload
       = Payload.pNone ∧
     (login_employee "t" none
        [("EMP001", [("id", Val.vStr "EMP001"), ("email", Val.vStr "a@x.com"),
          ("password", Val.vStr "plaintext")])]
        [("email", Val.vStr "a@x.com"), ("password", Val.vStr "p")]).2
       = [("EMP001", [("id", Val.vStr "EMP001"), ("email", Val.vStr "a@x.com"),
           ("password", Val.vStr "plaintext")])]) ∧
    login_employee "t" none
        [("EMP001", [("id", Val.vStr "EMP001"), ("email", Val.vStr "a@x.com"),
          ("password", Val.vStr (bcrypt_hashpw "admin" "S"))])]
        [("email", Val.vStr "a@x.com"), ("password", Val.vStr "wrong")] =
      (response_wrapper 401 "Invalid email or password" Payload.pNone,
       [("EMP001", [("id", Val.vStr "EMP001"), ("email", Val.vStr "a@x.com"),
         ("password", Val.vStr (bcrypt_hashpw "admin" "S"))])]) := by
  refine ⟨?_, ?_, ?_, ?_⟩
  · exact (c7_login_unauthorized "t" none []
      [("email", Val.vStr "z@x.com"), ("password", Val.vStr "p")]
      (by decide) (by decide) (by decide)).1 (by decide)
  · exact (c7_login_unauthorized "t" none
      [("EMP001", [("id", Val.vStr "EMP001"), ("email", Val.vStr "a@x.com"),
        ("password", Val.vNull)])]
      [("email", Val.vStr "a@x.com"), ("password", Val.vStr "p")]
      (by decide) (by decide) (by decide)).2.1
      [("id", Val.vStr "EMP001"), ("email", Val.vStr "a@x.com"), ("password", Val.vNull)]
      [] (by decide) (by decide)
  · exact (c7_login_unauthorized "t" none
      [("EMP001", [("id", Val.vStr "EMP001"), ("email", Val.vStr "a@x.com"),
        ("password", Val.vStr "plaintext")])]
      [("email", Val.vStr "a@x.com"), ("password", Val.vStr "p")]
      (by decide) (by decide) (by decide)).2.2.1
      [("id", Val.vStr "EMP001"), ("email", Val.vStr "a@x.com"),
       ("password", Val.vStr "plaintext")]
      [] "plaintext" (by decide) (by decide) (by decide)
  · exact (c7_login_unauthorized "t" none
      [("EMP001", [("id", Val.vStr "EMP001"), ("email", Val.vStr "a@x.com"),
        ("password", Val.vStr (bcrypt_hashpw "admin" "S"))])]
      [("email", Val.vStr "a@x.com"), ("password", Val.vStr "wrong")]
      (by decide) (by decide) (by decide)).2.2.2
      [("id", Val.vStr "EMP001"), ("email", Val.vStr "a@x.com"),
       ("password", Val.vStr (bcrypt_hashpw "admin" "S"))]
      [] (bcrypt_hashpw "admin" "S") "wrong"
      (by decide) (by decide) (by decide) (by decide) (by decide)

/-- C2 evidence: on a stored employee, update with the reset-password
flag persists a hash of the fixed plaintext that verifies, and strips
the flag from the stored record, but the response `password` field
holds the new hash, not the plaintext: the final merge of the fetched
record overwrites the plaintext the code had placed in the response
(the comments at service.py lines 171 and 190 say the response should
carry the standard password). -/
theorem c2_reset_password_evidence :
    Payload.getField (update_employee "t2" "S2"
        [("EMP001", [("id", Val.vStr "EMP001"), ("email", Val.vStr "b@x.com"),
          ("password", Val.vStr (bcrypt_hashpw "old" "S1"))])]
        "EMP001" [("update_password", Val.vBool true)]).1.payload "password"
      = some (Val.vStr (bcrypt_hashpw "admin" "S2")) ∧
    Payload.getField (update_employee "t2" "S2"
        [("EMP001", [("id", Val.vStr "EMP001"), ("email", Val.vStr "b@x.com"),
          ("password", Val.vStr (bcrypt_hashpw "old" "S1"))])]
        "EMP001" [("update_password", Val.vBool true)]).1.payload "password"
      ≠ some (Val.vStr "admin") ∧
    Doc.get (Store.getDocD (update_employee "t2" "S2"
        [("EMP001", [("id", Val.vStr "EMP001"), ("email", Val.vStr "b@x.com"),
          ("password", Val.vStr (bcrypt_hashpw "old" "S1"))])]
        "EMP001" [("update_password", Val.vBool true)]).2 "EMP001" []) "password"
      = some (Val.vStr (bcrypt_hashpw "admin" "S2")) ∧
    bcrypt_checkpw "admin" (bcrypt_hashpw "admin" "S2") = true ∧
    Doc.hasKey (Store.getDocD (update_employee "t2" "S2"
        [("EMP001", [("id", Val.vStr "EMP001"), ("email", Val.vStr "b@x.com"),
          ("password", Val.vStr (bcrypt_hashpw "old" "S1"))])]
        "EMP001" [("update_password", Val.vBool true)]).2 "EMP001" [])
      "update_password" = false := by
  refine ⟨by decide, by decide, by decide, by decide, by decide⟩

/-- C6 counterexample: an update whose payload itself carries an `id`
key overwrites the stored record id: after updating company PEPRE-1000
with payload containing id PEPRE-9999, the stored record id field reads
PEPRE-9999, so the claimed id immutability fails on the code. -/
theorem c6_counterexample :
    (update_company "t2"
        [("PEPRE-1000", [("id", Val.vStr "PEPRE-1000"), ("email", Val.vStr "a@x.com")])]
        "PEPRE-1000" [("id", Val.vStr "PEPRE-9999")]).1.status = 200 ∧
    Doc.get (Store.getDocD (update_company "t2"
        [("PEPRE-1000", [("id", Val.vStr "PEPRE-1000"), ("email", Val.vStr "a@x.com")])]
        "PEPRE-1000" [("id", Val.vStr "PEPRE-9999")]).2 "PEPRE-1000" []) "id"
      = some (Val.vStr "PEPRE-9999") := by
  refine ⟨by decide, by decide⟩

theorem pwBranch_hasKey_false (salt : String) (data d1 r : Doc) (f : String)
    (hf1 : f ≠ "password") (hf2 : f ≠ "update_password")
    (h : pwBranch salt data = PwOut.ok d1 r) (hid : Doc.hasKey data f = false) :
    Doc.hasKey d1 f = false := by
  unfold pwBranch at h
  split at h
  · cases h
    rw [Doc.hasKey_erase_ne _ _ _ (Ne.symm hf2), Doc.hasKey_set_ne _ _ _ _ (Ne.symm hf1)]
    exact hid
  · split at h
    · cases h
      exact hid
    · split at h
      · cases h
        rw [Doc.hasKey_erase_ne _ _ _ (Ne.symm hf1)]
        exact hid
      · cases h
        rw [Doc.hasKey_set_ne _ _ _ _ (Ne.symm hf1)]
        exact hid
    · exact PwOut.noConfusion h
    · cases h
      rw [Doc.hasKey_erase_ne _ _ _ (Ne.symm hf1)]
      exact hid

/-- C6 (amended): apart from registration, the modelled writing
operations preserve every stored record id provided the update payload
itself carries no `id` key: company update, employee update (including
its password branch) and login (which writes only last_login) leave the
`id` field of every stored document unchanged; an update payload that
does carry an `id` key overwrites the stored id. -/
theorem c6_id_immutable_outside_register (now salt : String) (fail : Option String)
    (cs es ls : Store) (cid eid : String) (cdata edata ldata : Doc)
    (hc : Doc.hasKey cdata "id" = false) (he : Doc.hasKey edata "id" = false) :
    (∀ k : String, Doc.get (Store.getDocD (update_company now cs cid cdata).2 k []) "id"
      = Doc.get (Store.getDocD cs k []) "id") ∧
    (∀ k : String, Doc.get (Store.getDocD (update_employee now salt es eid edata).2 k []) "id"
      = Doc.get (Store.getDocD es k []) "id") ∧
    (∀ k : String, Doc.get (Store.getDocD (login_employee now fail ls ldata).2 k []) "id"
      = Doc.get (Store.getDocD ls k []) "id") := by
  refine ⟨?_, ?_, ?_⟩
  all_goals intro k
  · unfold update_company
    split
    · rfl
    · split
      · rfl
      · split
        · rfl
        · split
          · rfl
          · exact Store.getDocD_updateDoc_of_not_key cs cid _ "id"
              (by rw [Doc.hasKey_set_ne _ _ _ _ (by decide)]; exact hc) k
  · unfold update_employee
    split
    · rfl
    · split
      · rfl
      · split
        · rfl
        · split
          · rfl
          · split
            · rfl
            · next data1 respData heq =>
              exact Store.getDocD_updateDoc_of_not_key es eid _ "id"
                (by
                  rw [Doc.hasKey_set_ne _ _ _ _ (by decide)]
                  exact pwBranch_hasKey_false salt edata data1 respData "id"
                    (by decide) (by decide) heq he) k
  · show Doc.get (Store.getDocD (login_employee now fail ls ldata).2 k []) "id" = _
    unfold login_employee
    dsimp only
    repeat' first
      | rfl
      | exact Store.getDocD_updateDoc_of_not_key ls _ _ "id" (by simp [Doc.hasKey]) k
      | split

theorem c6_witness :
    Doc.get (Store.getDocD (update_company "t2"
        [("PEPRE-1000", [("id", Val.vStr "PEPRE-1000"), ("email", Val.vStr "a@x.com")])]
        "PEPRE-1000" [("name", Val.vStr "NewName")]).2 "PEPRE-1000" []) "id"
      = Doc.get (Store.getDocD
          [("PEPRE-1000", [("id", Val.vStr "PEPRE-1000"), ("email", Val.vStr "a@x.com")])]
          "PEPRE-1000" []) "id" ∧
    Doc.get (Store.getDocD (update_employee "t2" "S2"
        [("EMP001", [("id", Val.vStr "EMP001"), ("email", Val.vStr "b@x.com"),
          ("password", Val.vStr (bcrypt_hashpw "old" "S1"))])]
        "EMP001" [("update_password", Val.vBool true)]).2 "EMP001" []) "id"
      = Doc.get (Store.getDocD
          [("EMP001", [("id", Val.vStr "EMP001"), ("email", Val.vStr "b@x.com"),
            ("password", Val.vStr (bcrypt_hashpw "old" "S1"))])]
          "EMP001" []) "id" ∧
    Doc.get (Store.getDocD (login_employee "t3" none
        [("EMP001", [("id", Val.vStr "EMP001"), ("email", Val.vStr "b@x.com"),
          ("password", Val.vStr (bcrypt_hashpw "admin" "S"))])]
        [("email", Val.vStr "b@x.com"), ("password", Val.vStr "admin")]).2
        "EMP001" []) "id"
      = Doc.get (Store.getDocD
          [("EMP001", [("id", Val.vStr "EMP001"), ("email", Val.vStr "b@x.com"),
            ("password", Val.vStr (bcrypt_hashpw "admin" "S"))])]
          "EMP001" []) "id" := by
  have h := c6_id_immutable_outside_register "t2" "S2" none
    [("PEPRE-1000", [("id", Val.vStr "PEPRE-1000"), ("email", Val.vStr "a@x.com")])]
    [("EMP001", [("id", Val.vStr "EMP001"), ("email", Val.vStr "b@x.com"),
      ("password", Val.vStr (bcrypt_hashpw "old" "S1"))])]
    [("EMP001", [("id", Val.vStr "EMP001"), ("email", Val.vStr "b@x.com"),
      ("password", Val.vStr (bcrypt_hashpw "admin" "S"))])]
    "PEPRE-1000" "EMP001"
    [("name", Val.vStr "NewName")]
    [("update_password", Val.vBool true)]
    [("email", Val.vStr "b@x.com"), ("password", Val.vStr "admin")]
    (by decide) (by decide)
  have h3 := c6_id_immutable_outside_register "t3" "S2" none
    [("PEPRE-1000", [("id", Val.vStr "PEPRE-1000"), ("email", Val.vStr "a@x.com")])]
    [("EMP001", [("id", Val.vStr "EMP001"), ("email", Val.vStr "b@x.com"),
      ("password", Val.vStr (bcrypt_hashpw "old" "S1"))])]
    [("EMP001", [("id", Val.vStr "EMP001"), ("email", Val.vStr "b@x.com"),
      ("password", Val.vStr (bcrypt_hashpw "admin" "S"))])]
    "PEPRE-1000" "EMP001"
    [("name", Val.vStr "NewName")]
    [("update_password", Val.vBool true)]
    [("email", Val.vStr "b@x.com"), ("password", Val.vStr "admin")]
    (by decide) (by decide)
  exact ⟨h.1 "PEPRE-1000", h.2.1 "EMP001", h3.2.2 "EMP001"⟩
